import Mathlib

/-!
Verification of `gen_traps.py`, the build-time generator that emits the 256
x86-64 interrupt/exception entry trampolines and the 256-entry dispatch
table.  The generator is a pure text producer: we embed its output stream as
the list of the strings passed to `print`, in the order they are printed
(each payload is printed followed by one newline character).
-/

set_option maxRecDepth 8000
set_option maxHeartbeats 1600000

namespace GenTraps

/-- The static classification table `TRAPS` of gen_traps.py (lines 1-34):
one `(label, has_hw_error_code)` pair per architectural vector 0..31,
in positional order. -/
def TRAPS : List (String × Bool) :=
  [("division_error", false),
   ("debug", false),
   ("nmi", false),
   ("breakpoint", false),
   ("overflow", false),
   ("bound_range_exceeded", false),
   ("invalid_opcode", false),
   ("device_not_available", false),
   ("double_fault", true),
   ("coprocessor_segment_overrun", false),
   ("invalid_tss", true),
   ("segment_not_present", true),
   ("stack_segment_fault", true),
   ("general_protection_fault", true),
   ("page_fault", true),
   ("reserved15", false),
   ("x87_fp_exception", false),
   ("alignment_check", true),
   ("machine_check", false),
   ("simd_fp_exception", false),
   ("virtualization_exception", false),
   ("control_protection_exception", true),
   ("reserved22", false),
   ("reserved23", false),
   ("reserved24", false),
   ("reserved25", false),
   ("reserved26", false),
   ("reserved27", false),
   ("hypervisor_injection", false),
   ("vmm_communication_exception", true),
   ("security_exception", true),
   ("reserved31", false)]

/-- The external dispatch symbol the generator declares with `.extern`
(gen_traps.py line 38) and jumps to from every trampoline. -/
def dispatchSymbol : String := "handleTrap"

/-- Lines printed by the first emission loop (gen_traps.py lines 39-45) for
one entry `e = (name, has_err_code)` of `TRAPS` at position `i`:
`.global`, label, optional `pushq $0` padding when the vector has no
hardware error code, `pushq $i`, and the jump (whose payload carries the
extra `\n` of the f-string, producing the blank separator line). -/
def trapStub (i : Nat) (e : String × Bool) : List String :=
  [".global " ++ e.1, e.1 ++ ":"]
    ++ (if e.2 then [] else ["\tpushq $0"])
    ++ ["\tpushq $" ++ Nat.repr i, "\tjmp handleTrap\n"]

/-- Lines printed by the second emission loop (gen_traps.py lines 47-52) for
vector `i` in 32..255: synthesized name `vector{i}`, unconditional `push $0`
padding, `push $i`, and the jump. -/
def vectorStub (i : Nat) : List String :=
  [".global vector" ++ Nat.repr i,
   "vector" ++ Nat.repr i ++ ":",
   "\tpush $0",
   "\tpush $" ++ Nat.repr i,
   "\tjmp handleTrap\n"]

/-- All trampoline lines, in emission order: the 32 `TRAPS` stubs (with
`enumerate` supplying the index) followed by the 224 synthesized stubs for
vectors 32..255 (gen_traps.py lines 39-52). -/
def stubSection : List String :=
  (TRAPS.enum.flatMap fun p => trapStub p.1 p.2)
    ++ ((List.range' 32 224).flatMap vectorStub)

/-- The dispatch-table lines (gen_traps.py lines 57-60): one `.quad` per
`TRAPS` label in order, then one `.quad vector{i}` for each `i` in 32..255. -/
def tableEntries : List String :=
  (TRAPS.map fun e => "\t.quad " ++ e.1)
    ++ ((List.range' 32 224).map fun i => "\t.quad vector" ++ Nat.repr i)

/-- The complete output stream of `main` (gen_traps.py lines 36-60), as the
ordered list of `print` payloads. -/
def main : List String :=
  [".section .text", ".extern handleTrap"]
    ++ stubSection
    ++ [".section .data", ".global trap_table", "trap_table:"]
    ++ tableEntries

/-- The exact text written to stdout: every payload followed by the newline
`print` appends. -/
def render (ls : List String) : String :=
  ls.foldr (fun s acc => s ++ "\n" ++ acc) ""

/-- The generator as invoked: `gen_traps.py` reads neither command-line
arguments nor environment variables (no `sys.argv`, no `os.environ` appears
in the source), so the produced stream does not depend on them. -/
def run (_argv : List String) (_env : List (String × String)) : List String :=
  main

/-- The entry-point name of the trampoline for vector `i`: the `TRAPS` label
for 0..31, the synthesized `vector{i}` for 32..255. -/
def vectorName (i : Nat) : String :=
  if i < 32 then (TRAPS.getD i ("", false)).1 else "vector" ++ Nat.repr i

/-- The classification used during emission: the `TRAPS` flag for vectors
0..31; vectors 32..255 have no flag and are emitted by the unconditional
second loop, i.e. treated as carrying no hardware error code. -/
def hasHwErrorCode (i : Nat) : Bool :=
  if i < 32 then (TRAPS.getD i ("", false)).2 else false

/-- The lines of the one trampoline emitted for vector `i`. -/
def trampolineOf (i : Nat) : List String :=
  if i < 32 then trapStub i (TRAPS.getD i ("", false)) else vectorStub i

/-- Boolean test that `pat` is an initial segment of `s` (character lists). -/
def leadsWith : List Char → List Char → Bool
  | [], _ => true
  | _ :: _, [] => false
  | p :: ps, c :: cs => p == c && leadsWith ps cs

/-- A push instruction line: both loops emit pushes as a tab followed by a
mnemonic starting with `push`. -/
def isPushLine (s : String) : Bool := leadsWith (String.data "\tpush") s.data

/-- A label-definition line: ends with a colon. -/
def isLabelLine (s : String) : Bool :=
  match s.data.getLast? with
  | some c => c == ':'
  | none => false

/-- An `.extern` declaration line. -/
def isExternLine (s : String) : Bool := leadsWith (String.data ".extern") s.data

/-- A `.global` visibility declaration line. -/
def isGlobalLine (s : String) : Bool := leadsWith (String.data ".global") s.data

/-- A section-switch line. -/
def isSectionLine (s : String) : Bool := leadsWith (String.data ".section") s.data

/-- The push-instruction lines of vector `i`'s trampoline, in emitted order. -/
def pushesOf (i : Nat) : List String := (trampolineOf i).filter isPushLine

/-- The zero-padding push line as emitted for vector `i`'s range:
`pushq $0` in the first loop, `push $0` in the second. -/
def zeroPushLine (i : Nat) : String :=
  if i < 32 then "\tpushq $0" else "\tpush $0"

/-- The vector-index push line as emitted for vector `i`'s range. -/
def indexPushLine (i : Nat) : String :=
  (if i < 32 then "\tpushq $" else "\tpush $") ++ Nat.repr i

/-- The vectors the spec lists as carrying a hardware error code. -/
def errVectors : List Nat := [8, 10, 11, 12, 13, 14, 17, 21, 29, 30]

/-- The push mnemonic the generator actually uses for vector `i`: the first
loop (vectors 0..31) writes `pushq`, the second loop (32..255) writes
`push`. -/
def pushMnemonic (i : Nat) : String := if i < 32 then "pushq" else "push"

/-- Modelled from the spec: the "identical template, parameterized only by
index and the error-code flag" (plus the entry-point name), extended with
the push mnemonic as an extra parameter, which the code requires because
its two loops spell the push instruction differently. -/
def mkStub (mnem name : String) (i : Nat) (hasErr : Bool) : List String :=
  [".global " ++ name, name ++ ":"]
    ++ (if hasErr then [] else ["\t" ++ mnem ++ " $0"])
    ++ ["\t" ++ mnem ++ " $" ++ Nat.repr i, "\tjmp " ++ dispatchSymbol ++ "\n"]

/-- Replace every occurrence of `pat` by `rep`, scanning left to right;
`fuel` bounds the recursion (one unit per consumed character). -/
def replaceFrom (pat rep : List Char) : Nat → List Char → List Char
  | _, [] => []
  | 0, s => s
  | fuel + 1, c :: cs =>
    if leadsWith pat (c :: cs) then
      rep ++ replaceFrom pat rep fuel (List.drop (pat.length - 1) cs)
    else
      c :: replaceFrom pat rep fuel cs

/-- String-level occurrence replacement built on `replaceFrom`. -/
def replaceStr (s pat rep : String) : String :=
  String.mk (replaceFrom pat.data rep.data s.data.length s.data)

/-- Modelled from the spec: "the emitted trampoline texts are identical
after substituting each vector's entry-point name and index value" — the
trampoline of vector `i` with its entry-point name replaced by the
placeholder `NAME` and its index operand `$i` by the placeholder `$IDX`. -/
def canonicalized (i : Nat) : List String :=
  (trampolineOf i).map fun s =>
    replaceStr (replaceStr s (vectorName i) "NAME") ("$" ++ Nat.repr i) "$IDX"

/-- Accumulator-style decimal parser over characters. -/
def digitsToNat : List Char → Nat → Nat
  | [], acc => acc
  | c :: cs, acc => digitsToNat cs (acc * 10 + (c.toNat - 48))

/-- Left inverse of `vectorName`: recover the vector index from an
entry-point name (parse the digits of a synthesized `vector{i}` name, or
look the label up in `TRAPS`).  Used to establish that the 256 names are
pairwise distinct. -/
def decodeIdx (s : String) : Nat :=
  if leadsWith (String.data "vector") s.data then
    digitsToNat (s.data.drop 6) 0
  else
    (TRAPS.map Prod.fst).findIdx (fun n => n == s)

/-- Left inverse of the dispatch-table entry for vector `i`: strip the
7-character `.quad` directive and decode the name. -/
def decodeQuad (s : String) : Nat := decodeIdx (String.mk (s.data.drop 7))

example : trampolineOf 0 =
    [".global division_error", "division_error:", "\tpushq $0", "\tpushq $0",
     "\tjmp handleTrap\n"] := by decide

example : trampolineOf 14 =
    [".global page_fault", "page_fault:", "\tpushq $14", "\tjmp handleTrap\n"] := by
  decide

example : trampolineOf 200 =
    [".global vector200", "vector200:", "\tpush $0", "\tpush $200",
     "\tjmp handleTrap\n"] := by decide

example : main.length = 1531 := by decide

theorem decode_vectorName : ∀ i, i < 256 → decodeIdx (vectorName i) = i := by
  decide

theorem decode_quad : ∀ i, i < 256 → decodeQuad ("\t.quad " ++ vectorName i) = i := by
  decide

theorem vectorName_inj :
    ∀ x ∈ List.range 256, ∀ y ∈ List.range 256, vectorName x = vectorName y → x = y := by
  intro x hx y hy h
  have hx' := List.mem_range.mp hx
  have hy' := List.mem_range.mp hy
  calc x = decodeIdx (vectorName x) := (decode_vectorName x hx').symm
    _ = decodeIdx (vectorName y) := by rw [h]
    _ = y := decode_vectorName y hy'

theorem names_nodup : ((List.range 256).map vectorName).Nodup :=
  (List.nodup_range 256).map_on vectorName_inj

theorem quads_nodup : ((List.range 256).map fun i => "\t.quad " ++ vectorName i).Nodup := by
  refine (List.nodup_range 256).map_on ?_
  intro x hx y hy h
  have hx' := List.mem_range.mp hx
  have hy' := List.mem_range.mp hy
  calc x = decodeQuad ("\t.quad " ++ vectorName x) := (decode_quad x hx').symm
    _ = decodeQuad ("\t.quad " ++ vectorName y) := by rw [h]
    _ = y := decode_quad y hy'

theorem tableEntries_map :
    tableEntries = (List.range 256).map fun i => "\t.quad " ++ vectorName i := by
  decide

theorem tableEntries_nodup : tableEntries.Nodup := by
  rw [tableEntries_map]; exact quads_nodup

theorem tableGetD : ∀ i, i < 256 → tableEntries.getD i "" = "\t.quad " ++ vectorName i := by
  decide

theorem label_in_trampoline : ∀ i, i < 256 → (vectorName i ++ ":") ∈ trampolineOf i := by
  decide

theorem special_not_name :
    ∀ i, i < 256 → vectorName i ≠ "trap_table" ∧ vectorName i ≠ "handleTrap" := by
  decide

theorem all_names_nodup :
    (((List.range 256).map vectorName) ++ ["trap_table", dispatchSymbol]).Nodup := by
  rw [List.nodup_append]
  refine ⟨names_nodup, by decide, ?_⟩
  intro a ha hb
  obtain ⟨i, hi, rfl⟩ := List.mem_map.mp ha
  have hi' := List.mem_range.mp hi
  have h2 := special_not_name i hi'
  simp only [dispatchSymbol, List.mem_cons, List.not_mem_nil, or_false] at hb
  rcases hb with h | h
  · exact h2.1 h
  · exact h2.2 h

theorem flatMap_high (l : List Nat) (h : ∀ i ∈ l, 32 ≤ i) :
    l.flatMap trampolineOf = l.flatMap vectorStub := by
  induction l with
  | nil => rfl
  | cons a t ih =>
    simp only [List.flatMap_cons]
    have ha : 32 ≤ a := h a (List.mem_cons_self a t)
    have hstub : trampolineOf a = vectorStub a := by
      unfold trampolineOf
      rw [if_neg (by omega)]
    rw [hstub, ih fun i hi => h i (List.mem_cons_of_mem a hi)]

theorem stubs_flat : stubSection = (List.range 256).flatMap trampolineOf := by
  have hsplit : List.range 256 = List.range' 0 32 ++ List.range' 32 224 := by
    rw [List.range_eq_range']
    rw [List.range'_append 0 32 224 1]
  rw [hsplit, List.flatMap_append]
  have h1 : (List.range' 0 32).flatMap trampolineOf
      = TRAPS.enum.flatMap fun p => trapStub p.1 p.2 := by decide
  have h2 : (List.range' 32 224).flatMap trampolineOf
      = (List.range' 32 224).flatMap vectorStub := by
    refine flatMap_high _ fun i hi => ?_
    have := List.mem_range'_1.mp hi
    omega
  rw [h1, h2]
  rfl

/-- C1: for every vector 0..255, the trampoline contains the zero-padding
push exactly when `has_hw_error_code` is false (i.e. for every index except
8, 10, 11, 12, 13, 14, 17, 21, 29, 30), and when the padding push is
present it is emitted strictly before the index push: the trampoline's push
lines, in output order, are `[padding, index]` in that case and `[index]`
otherwise. -/
theorem padding_push_iff_no_error_code :
    ∀ i, i < 256 →
      (zeroPushLine i ∈ pushesOf i ↔ hasHwErrorCode i = false)
      ∧ (hasHwErrorCode i = false → pushesOf i = [zeroPushLine i, indexPushLine i])
      ∧ (hasHwErrorCode i = true → pushesOf i = [indexPushLine i]) := by
  decide

theorem padding_push_iff_no_error_code_witness :
    0 < 256
    ∧ ((zeroPushLine 0 ∈ pushesOf 0 ↔ hasHwErrorCode 0 = false)
      ∧ (hasHwErrorCode 0 = false → pushesOf 0 = [zeroPushLine 0, indexPushLine 0])
      ∧ (hasHwErrorCode 0 = true → pushesOf 0 = [indexPushLine 0])) :=
  ⟨by decide, padding_push_iff_no_error_code 0 (by decide)⟩

/-- C2: the classification assigns `has_hw_error_code = true` to exactly the
vectors 8, 10, 11, 12, 13, 14, 17, 21, 29, 30, and every vector 32..255 is
emitted with an unconditional zero-padding push, i.e. treated as carrying
no hardware error code. -/
theorem error_code_classification :
    ∀ i, i < 256 →
      (hasHwErrorCode i = true ↔ i ∈ errVectors)
      ∧ (32 ≤ i → pushesOf i = ["\tpush $0", "\tpush $" ++ Nat.repr i]) := by
  decide

theorem error_code_classification_witness :
    200 < 256 ∧ 32 ≤ 200
    ∧ (hasHwErrorCode 200 = true ↔ 200 ∈ errVectors)
    ∧ pushesOf 200 = ["\tpush $0", "\tpush $" ++ Nat.repr 200] :=
  ⟨by decide, by decide,
   (error_code_classification 200 (by decide)).1,
   (error_code_classification 200 (by decide)).2 (by decide)⟩

/-- C3: the dispatch table has exactly 256 entries; the entry at position
`i` is a `.quad` naming exactly the trampoline whose vector index is `i`
(that name labels vector `i`'s trampoline), and that entry occurs in exactly
one table position. -/
theorem dispatch_table_entries :
    ∀ i, i < 256 →
      tableEntries.length = 256
      ∧ tableEntries.getD i "" = "\t.quad " ++ vectorName i
      ∧ tableEntries.count ("\t.quad " ++ vectorName i) = 1
      ∧ (vectorName i ++ ":") ∈ trampolineOf i := by
  intro i hi
  have hmem : "\t.quad " ++ vectorName i ∈ tableEntries := by
    rw [tableEntries_map]
    exact List.mem_map.mpr ⟨i, List.mem_range.mpr hi, rfl⟩
  exact ⟨by decide, tableGetD i hi,
    List.count_eq_one_of_mem tableEntries_nodup hmem, label_in_trampoline i hi⟩

theorem dispatch_table_entries_witness :
    200 < 256
    ∧ (tableEntries.length = 256
      ∧ tableEntries.getD 200 "" = "\t.quad " ++ vectorName 200
      ∧ tableEntries.count ("\t.quad " ++ vectorName 200) = 1
      ∧ (vectorName 200 ++ ":") ∈ trampolineOf 200) :=
  ⟨by decide, dispatch_table_entries 200 (by decide)⟩

/-- C4: exactly one trampoline is emitted per index — the label lines of the
whole output are precisely the 256 trampoline labels in index order plus
`trap_table:` — and the 256 entry-point names are pairwise distinct (the 32
hand-written labels, the 224 synthesized `vector{i}` names, the table symbol
and the dispatch symbol never collide). -/
theorem trampoline_names_unique :
    (((List.range 256).map vectorName) ++ ["trap_table", dispatchSymbol]).Nodup
    ∧ main.filter isLabelLine
        = ((List.range 256).map fun i => vectorName i ++ ":") ++ ["trap_table:"] :=
  ⟨all_names_nodup, by decide⟩

/-- C5: every trampoline's last line is an unconditional `jmp` to the one
dispatch symbol, no trampoline line is a `call`, and that symbol is exactly
the one declared `.extern` (the output's only `.extern` line declares it). -/
theorem trampolines_jump_to_dispatch :
    (∀ i, i < 256 →
      (trampolineOf i).getLast? = some ("\tjmp " ++ dispatchSymbol ++ "\n")
      ∧ ((trampolineOf i).all fun s => !leadsWith (String.data "\tcall") s.data) = true)
    ∧ main.filter isExternLine = [".extern " ++ dispatchSymbol] := by
  decide

theorem trampolines_jump_to_dispatch_witness :
    7 < 256
    ∧ (trampolineOf 7).getLast? = some ("\tjmp " ++ dispatchSymbol ++ "\n") :=
  ⟨by decide, (trampolines_jump_to_dispatch.1 7 (by decide)).1⟩

/-- C6 counterexample: vectors 1 and 33 have equal `has_hw_error_code`
flags, yet their trampoline texts are not identical after substituting each
vector's entry-point name and index value: vector 1's padding line reads
`pushq $0` while vector 33's reads `push $0` (neither line mentions either
vector's name or index, so no substitution can reconcile them); the two
loops use different push mnemonics. -/
theorem identical_template_counterexample :
    hasHwErrorCode 1 = hasHwErrorCode 33
    ∧ (trampolineOf 1).getD 2 "" = "\tpushq $0"
    ∧ (trampolineOf 33).getD 2 "" = "\tpush $0"
    ∧ canonicalized 1 ≠ canonicalized 33
    ∧ pushMnemonic 1 ≠ pushMnemonic 33 := by
  decide

/-- C6 amended: every vector's trampoline is an instance of one common
template parameterized by its index, its error-code flag, its entry-point
name, and additionally a push mnemonic — `pushq` for vectors 0..31 and
`push` for vectors 32..255 — so equal-flag vectors on the same side of the
32 boundary share their template, but across the boundary the push
mnemonics differ. -/
theorem template_with_mnemonic :
    ∀ i, i < 256 →
      trampolineOf i = mkStub (pushMnemonic i) (vectorName i) i (hasHwErrorCode i) := by
  decide

theorem template_with_mnemonic_witness :
    33 < 256
    ∧ trampolineOf 33 = mkStub (pushMnemonic 33) (vectorName 33) 33 (hasHwErrorCode 33) :=
  ⟨by decide, template_with_mnemonic 33 (by decide)⟩

/-- C7: vector 14's trampoline contains exactly one push (its index, 14)
before its jump and no padding push; vector 0's trampoline pushes zero
padding, then pushes 0, then jumps; vector 200's trampoline is named from
"200", has the same two-push shape as vector 0's, and table position 200
names it. -/
theorem concrete_scenario_vectors :
    trampolineOf 14
        = [".global page_fault", "page_fault:", "\tpushq $14", "\tjmp handleTrap\n"]
    ∧ pushesOf 14 = ["\tpushq $14"]
    ∧ trampolineOf 0
        = [".global division_error", "division_error:", "\tpushq $0", "\tpushq $0",
           "\tjmp handleTrap\n"]
    ∧ vectorName 200 = "vector" ++ Nat.repr 200
    ∧ pushesOf 200 = ["\tpush $0", "\tpush $200"]
    ∧ (pushesOf 200).length = (pushesOf 0).length
    ∧ tableEntries.getD 200 "" = "\t.quad " ++ vectorName 200
    ∧ hasHwErrorCode 14 = true
    ∧ hasHwErrorCode 0 = false
    ∧ hasHwErrorCode 200 = false := by
  decide

/-- C8: the output's only `.extern` line declares the dispatch symbol, which
is never defined as a label; the `.global` lines are exactly one per
trampoline entry point (in index order) plus the table symbol; the table
symbol is immediately followed by exactly 256 `.quad` (8-byte) slots
holding the trampoline names in index order 0..255. -/
theorem symbol_visibility_contract :
    main.filter isExternLine = [".extern " ++ dispatchSymbol]
    ∧ (dispatchSymbol ++ ":") ∉ main
    ∧ main.filter isGlobalLine
        = ((List.range 256).map fun i => ".global " ++ vectorName i)
          ++ [".global trap_table"]
    ∧ tableEntries = (List.range 256).map (fun i => "\t.quad " ++ vectorName i)
    ∧ tableEntries.length = 256
    ∧ (tableEntries.all fun s => leadsWith (String.data "\t.quad ") s.data) = true
    ∧ main = [".section .text", ".extern handleTrap"] ++ stubSection
        ++ [".section .data", ".global trap_table", "trap_table:"] ++ tableEntries := by
  refine ⟨by decide, by decide, by decide, tableEntries_map, by decide, by decide, rfl⟩

/-- C9: the generator reads no command-line arguments, configuration or
environment, so any two runs produce identical payload streams and
byte-identical rendered output. -/
theorem generator_deterministic :
    ∀ a₁ e₁ a₂ e₂,
      run a₁ e₁ = run a₂ e₂ ∧ render (run a₁ e₁) = render (run a₂ e₂) :=
  fun _ _ _ _ => ⟨rfl, rfl⟩

theorem generator_deterministic_witness :
    run ["--flag"] [] = run [] [("HOME", "x")] :=
  (generator_deterministic ["--flag"] [] [] [("HOME", "x")]).1

/-- C10: the output is the text-section header, then the 256 trampolines in
strictly increasing vector-index order, then the data-section header and
the dispatch table; exactly two section switches occur, `.text` first at
the top, so every trampoline lies in `.text` and the table follows all of
them in `.data`. -/
theorem output_layout :
    main = [".section .text", ".extern handleTrap"]
        ++ ((List.range 256).flatMap trampolineOf)
        ++ [".section .data", ".global trap_table", "trap_table:"] ++ tableEntries
    ∧ main.filter isSectionLine = [".section .text", ".section .data"]
    ∧ main.getD 0 "" = ".section .text" := by
  refine ⟨?_, by decide, rfl⟩
  rw [← stubs_flat]
  rfl

end GenTraps
